import Mathlib

/-!
Verification of the Mycodo async controller runtime
(src/mycodo/utils/async_utils.py, the async controller base classes, and
src/examples/async_sensor_example.py) against its natural-language
specification.

Delays and durations are modelled as rationals; Python exceptions are an
explicit inductive type; the effect trace of a call (result, number of
invocations, sleeps performed, log records emitted) is returned as data.
-/

set_option autoImplicit false

namespace Mycodo

/-- Python exception values as they matter to async_utils: the code branches
on whether a caught exception is asyncio.TimeoutError, and on membership of
the retryable exception tuple. -/
inductive PyExc where
  | timeoutError
  | valueError (msg : String)
  | runtimeError (msg : String)
  deriving DecidableEq, Repr

/-- Python values, enough to express the falsy-fallback behaviour of
async_timeout and health-report dictionaries. -/
inductive PyVal where
  | pyNone
  | bool (b : Bool)
  | int (n : Int)
  | str (s : String)
  deriving DecidableEq, Repr

/-! ## async_retry (src/mycodo/utils/async_utils.py lines 17-67) -/

/-- Outcome of a call to async_retry: return a value, propagate an
exception, or (when max_retries = 0) the final `raise last_exception`
raises None. -/
inductive RetryResult (α : Type) where
  | success (v : α)
  | raised (e : PyExc)
  | raisedNone
  deriving DecidableEq, Repr

/-- A log record emitted by async_retry: `logger.warning` before each sleep
(carrying attempt number, max_retries and the chosen delay) or the final
`logger.error` (carrying max_retries, the attempt count). -/
inductive RetryLog where
  | warn (attempt max_retries : Nat) (delay : ℚ)
  | err (max_retries : Nat)
  deriving DecidableEq, Repr

/-- The observable trace of one async_retry call: its result, how many
times the wrapped operation was invoked, the asyncio.sleep durations in
order, and the log records in order. -/
structure RetryTrace (α : Type) where
  result : RetryResult α
  calls : Nat
  sleeps : List ℚ
  logs : List RetryLog
  deriving DecidableEq, Repr

/-- The `for attempt in range(max_retries)` loop of async_retry.
`attempt` is the 0-based index of the current attempt and `remaining` the
number of attempts still allowed (so `remaining = 1` means
`attempt == max_retries - 1`, the last attempt, where the code logs an
error instead of sleeping and then falls through to
`raise last_exception`).  The wrapped operation is modelled as a function
from the attempt index to its outcome, and the retryable exception tuple
as a Boolean predicate. -/
def retryGo {α : Type} (op : Nat → Except PyExc α) (retryable : PyExc → Bool)
    (max_retries : Nat) (backoff_factor max_delay : ℚ) :
    Nat → Nat → ℚ → Option PyExc → RetryTrace α
  | _, 0, _, last =>
      { result := match last with
          | some e => RetryResult.raised e
          | none => RetryResult.raisedNone
        calls := 0, sleeps := [], logs := [] }
  | attempt, 1, _, _ =>
      match op attempt with
      | Except.ok v =>
          { result := RetryResult.success v, calls := 1, sleeps := [], logs := [] }
      | Except.error e =>
          if retryable e then
            { result := RetryResult.raised e, calls := 1, sleeps := [],
              logs := [RetryLog.err max_retries] }
          else
            { result := RetryResult.raised e, calls := 1, sleeps := [], logs := [] }
  | attempt, r + 2, delay, _ =>
      match op attempt with
      | Except.ok v =>
          { result := RetryResult.success v, calls := 1, sleeps := [], logs := [] }
      | Except.error e =>
          if retryable e then
            let rest := retryGo op retryable max_retries backoff_factor max_delay
              (attempt + 1) (r + 1) (min (delay * backoff_factor) max_delay) (some e)
            { result := rest.result, calls := rest.calls + 1,
              sleeps := delay :: rest.sleeps,
              logs := RetryLog.warn (attempt + 1) max_retries delay :: rest.logs }
          else
            { result := RetryResult.raised e, calls := 1, sleeps := [], logs := [] }

/-- async_retry (async_utils.py lines 17-67): retry an async operation with
exponential backoff.  Parameters follow the Python signature:
max_retries, initial_delay, backoff_factor, max_delay; `retryable` is
membership of the `exceptions` tuple. -/
def async_retry {α : Type} (op : Nat → Except PyExc α) (retryable : PyExc → Bool)
    (max_retries : Nat) (initial_delay backoff_factor max_delay : ℚ) : RetryTrace α :=
  retryGo op retryable max_retries backoff_factor max_delay 0 max_retries initial_delay none

/-- The delay sequence of the spec: first element d, each next element
min (previous * f, m) — exactly the update `delay = min(delay * backoff_factor,
max_delay)` performed after each sleep. -/
def backoffSeq (d f m : ℚ) : Nat → List ℚ
  | 0 => []
  | k + 1 => d :: backoffSeq (min (d * f) m) f m k

/-- Attempt i of the operation fails with an exception the policy retries. -/
def fails_retryably {α : Type} (op : Nat → Except PyExc α) (retryable : PyExc → Bool)
    (i : Nat) : Prop :=
  ∃ e, op i = Except.error e ∧ retryable e = true

/-! ## async_timeout (src/mycodo/utils/async_utils.py lines 70-91) -/

/-- The behaviour of the awaited coroutine relative to the deadline: it
either completes before the deadline (with a result or an exception of its
own), or it is still pending at the deadline; in the latter case `late` is
the value it would eventually have produced — asyncio.wait_for cancels it,
so this value must never be returned. -/
inductive CoroOutcome (α : Type) where
  | completes (r : Except PyExc α)
  | exceedsDeadline (late : α)
  deriving Repr

/-- asyncio.wait_for: the coroutine's own result or exception if it finishes
in time, else the pending coroutine is cancelled and asyncio.TimeoutError is
raised. -/
def wait_for {α : Type} (outcome : CoroOutcome α) : Except PyExc α :=
  match outcome with
  | CoroOutcome.completes r => r
  | CoroOutcome.exceedsDeadline _ => Except.error PyExc.timeoutError

/-- async_timeout (async_utils.py lines 70-91): await wait_for; on
asyncio.TimeoutError return timeout_result when it `is not None`, else
re-raise; any other exception propagates uncaught.  Python's None argument
is the Option.none sentinel. -/
def async_timeout {α : Type} (outcome : CoroOutcome α) (timeout_sec : ℚ)
    (timeout_result : Option α) : Except PyExc α :=
  match wait_for outcome, timeout_sec with
  | Except.ok v, _ => Except.ok v
  | Except.error PyExc.timeoutError, _ =>
      match timeout_result with
      | some v => Except.ok v
      | none => Except.error PyExc.timeoutError
  | Except.error e, _ => Except.error e

/-! ## AsyncEventLoopManager (src/mycodo/utils/async_utils.py lines 129-191) -/

/-- An asyncio event loop handle: identity plus its closed flag. -/
structure EventLoop where
  id : Nat
  is_closed : Bool
  deriving DecidableEq, Repr

/-- The per-thread asyncio state: the loop installed by set_event_loop for
this thread (if any) and a counter supplying fresh loop identities. -/
structure ThreadCtx where
  current_loop : Option EventLoop
  next_id : Nat
  deriving DecidableEq, Repr

/-- asyncio.new_event_loop: a freshly created, open loop. -/
def new_event_loop (ctx : ThreadCtx) : EventLoop × ThreadCtx :=
  (⟨ctx.next_id, false⟩, { ctx with next_id := ctx.next_id + 1 })

/-- asyncio.get_event_loop: the thread's installed loop, or RuntimeError
when the thread has none. -/
def get_event_loop (ctx : ThreadCtx) : Except PyExc EventLoop :=
  match ctx.current_loop with
  | some l => Except.ok l
  | none => Except.error (PyExc.runtimeError "There is no current event loop")

/-- asyncio.set_event_loop: install a loop as the thread's current loop. -/
def set_event_loop (ctx : ThreadCtx) (l : EventLoop) : ThreadCtx :=
  { ctx with current_loop := some l }

/-- AsyncEventLoopManager.get_or_create_event_loop (async_utils.py lines
137-153): try get_event_loop; if the loop is closed, or RuntimeError was
raised, create a new loop and install it; return the loop. -/
def get_or_create_event_loop (ctx : ThreadCtx) : EventLoop × ThreadCtx :=
  match get_event_loop ctx with
  | Except.ok l =>
      if l.is_closed then
        let fc := new_event_loop ctx
        (fc.1, set_event_loop fc.2 fc.1)
      else
        (l, ctx)
  | Except.error _ =>
      let fc := new_event_loop ctx
      (fc.1, set_event_loop fc.2 fc.1)

/-- An asyncio.Task handle: the loop it was attached to and the coroutine
it runs. -/
structure PyTask (C : Type) where
  loop_id : Nat
  coro : C
  deriving DecidableEq, Repr

/-- asyncio.get_running_loop: the loop driving the calling context, or
RuntimeError when no loop is running. -/
def get_running_loop (running : Option EventLoop) : Except PyExc EventLoop :=
  match running with
  | some l => Except.ok l
  | none => Except.error (PyExc.runtimeError "no running event loop")

/-- loop.create_task: attach the coroutine to the loop as a task. -/
def create_task {C : Type} (l : EventLoop) (coro : C) : PyTask C :=
  ⟨l.id, coro⟩

/-- AsyncEventLoopManager.create_task_if_loop_running (async_utils.py lines
175-191): create a task on the running loop, or return None when
get_running_loop raises RuntimeError. -/
def create_task_if_loop_running {C : Type} (running : Option EventLoop) (coro : C) :
    Option (PyTask C) :=
  match get_running_loop running with
  | Except.ok l => some (create_task l coro)
  | Except.error _ => none

/-! ## Controller lifecycle (AbstractController / AbstractBaseController)

The classes themselves are not part of the provided sources; only their
tests (src/mycodo/tests/software_tests/test_async_controllers.py) and the
example controller are.  The lifecycle driver, try_initialize and the
default health check are therefore modelled from the spec. -/

/-- Lifecycle states of a controller (spec section 4.4). -/
inductive LifecycleState where
  | uninitialized
  | initializing
  | running
  | stopping
  | stopped
  deriving DecidableEq, Repr

/-- What one invocation of the controller's loop step does: finish
normally (setting running_flag to keepRunning) or raise an exception. -/
inductive LoopStepResult where
  | ok (keepRunning : Bool)
  | raises (e : PyExc)
  deriving DecidableEq, Repr

/-- The state the lifecycle driver threads through async_run. -/
structure RunState where
  lifecycle : LifecycleState
  running_flag : Bool
  iteration_count : Nat
  cleanup_calls : Nat
  caught_errors : Nat
  deriving DecidableEq, Repr

/-- Modelled from the spec: one Running-loop iteration of the lifecycle
driver (AbstractController.async_run is not under src/).  The loop step for
the current iteration is invoked; an exception is caught, logged and
counted — the lifecycle stays as it was; iteration_count increments once
per invocation regardless of whether it raised. -/
def run_iteration (loopStep : Nat → LoopStepResult) (s : RunState) : RunState :=
  match loopStep s.iteration_count with
  | LoopStepResult.ok keep =>
      { s with iteration_count := s.iteration_count + 1, running_flag := keep }
  | LoopStepResult.raises _ =>
      { s with iteration_count := s.iteration_count + 1,
               caught_errors := s.caught_errors + 1 }

/-- Modelled from the spec: the while-running_flag loop of async_run,
with explicit fuel bounding the number of iterations examined. -/
def run_loop (loopStep : Nat → LoopStepResult) : Nat → RunState → RunState
  | 0, s => s
  | fuel + 1, s =>
      if s.running_flag then run_loop loopStep fuel (run_iteration loopStep s) else s

/-- Modelled from the spec: AbstractController.async_run (not under src/).
Initialize once; on success enter Running with iteration_count 0 and loop
while running_flag; afterwards run the finally/cleanup step exactly once
and end Stopped.  A failing initialize ends Stopped without ever entering
Running. -/
def async_run (init : Except PyExc Unit) (loopStep : Nat → LoopStepResult)
    (fuel : Nat) : RunState :=
  match init with
  | Except.error _ =>
      { lifecycle := LifecycleState.stopped, running_flag := false,
        iteration_count := 0, cleanup_calls := 0, caught_errors := 0 }
  | Except.ok _ =>
      let s0 : RunState :=
        { lifecycle := LifecycleState.running, running_flag := true,
          iteration_count := 0, cleanup_calls := 0, caught_errors := 0 }
      let s1 := run_loop loopStep fuel s0
      { s1 with lifecycle := LifecycleState.stopped,
                cleanup_calls := s1.cleanup_calls + 1 }

/-- The observable trace of one async_try_initialize_model call. -/
structure TryInitTrace where
  invocations : Nat
  initialized_flag : Bool
  error_logs : Nat
  sleeps : List ℚ
  raised : Bool
  deriving DecidableEq, Repr

/-- Modelled from the spec: the retry loop of
AbstractBaseController.async_try_initialize_model (not under src/).  `k` is the
0-based index of the current attempt and `tries` the number of attempts
still allowed; each failure is logged, followed by a sleep of `wait`
between attempts; exhausting all attempts reports the failure (log) and
does not raise. -/
def try_initialize_go (init : Nat → Except PyExc Unit) (wait : ℚ) :
    Nat → Nat → TryInitTrace
  | _, 0 =>
      { invocations := 0, initialized_flag := false, error_logs := 0,
        sleeps := [], raised := false }
  | k, 1 =>
      match init k with
      | Except.ok _ =>
          { invocations := 1, initialized_flag := true, error_logs := 0,
            sleeps := [], raised := false }
      | Except.error _ =>
          { invocations := 1, initialized_flag := false, error_logs := 1,
            sleeps := [], raised := false }
  | k, t + 2 =>
      match init k with
      | Except.ok _ =>
          { invocations := 1, initialized_flag := true, error_logs := 0,
            sleeps := [], raised := false }
      | Except.error _ =>
          let rest := try_initialize_go init wait (k + 1) (t + 1)
          { invocations := rest.invocations + 1,
            initialized_flag := rest.initialized_flag,
            error_logs := rest.error_logs + 1,
            sleeps := wait :: rest.sleeps,
            raised := rest.raised }

/-- Modelled from the spec: async_try_initialize_model(tries, wait_sec). -/
def async_try_initialize_model (init : Nat → Except PyExc Unit) (tries : Nat)
    (wait : ℚ) : TryInitTrace :=
  try_initialize_go init wait 0 tries

/-- Modelled from the spec: start() — Uninitialized → Initializing, run
try_initialize, then Running on success and Stopped (never Running) when
all attempts exhausted. -/
def controller_start (init : Nat → Except PyExc Unit) (tries : Nat)
    (wait : ℚ) : LifecycleState × TryInitTrace :=
  let t := async_try_initialize_model init tries wait
  (if t.initialized_flag then LifecycleState.running else LifecycleState.stopped, t)

/-! ## Health checks -/

/-- The fields of a base controller that its health check reads. -/
structure BaseControllerState where
  unique_id : String
  lifecycle : LifecycleState
  initialized_flag : Bool
  running_flag : Bool
  deriving DecidableEq, Repr

namespace AbstractBaseController

/-- Modelled from the spec: the default async_health_check of the base
controller (not under src/) — healthy = initialized_flag and running_flag,
plus a human-readable message.  State-passing form: the returned state is
the controller state after the call, showing the call mutates nothing. -/
def async_health_check (c : BaseControllerState) :
    List (String × PyVal) × BaseControllerState :=
  ([("healthy", PyVal.bool (c.initialized_flag && c.running_flag)),
    ("message", PyVal.str
      (if c.initialized_flag && c.running_flag then "Controller is healthy"
       else "Controller is not running"))], c)

end AbstractBaseController

/-- The fields of the example temperature sensor
(src/examples/async_sensor_example.py) read by its health check. -/
structure SensorState where
  sensor_id : String
  reading_count : Nat
  is_connected : Bool
  is_async_initialized : Bool
  deriving DecidableEq, Repr

namespace AsyncTemperatureSensor

/-- AsyncTemperatureSensor.async_health_check
(src/examples/async_sensor_example.py lines 124-132), in state-passing
form: returns the health dict and the unchanged sensor state. -/
def async_health_check (s : SensorState) :
    List (String × PyVal) × SensorState :=
  ([("healthy", PyVal.bool s.is_connected),
    ("message", PyVal.str
      (if s.is_connected then "Sensor is running" else "Sensor not connected")),
    ("sensor_id", PyVal.str s.sensor_id),
    ("connected", PyVal.bool s.is_connected),
    ("reading_count", PyVal.int (s.reading_count : Int))], s)

end AsyncTemperatureSensor

/-! ## Lemmas about async_retry -/

theorem backoffSeq_length (f m : ℚ) :
    ∀ (k : Nat) (d : ℚ), (backoffSeq d f m k).length = k := by
  intro k
  induction k with
  | zero => intro d; simp [backoffSeq]
  | succ k ih => intro d; simp [backoffSeq, ih]

/-- If the first k attempts (from index `attempt`) fail retryably and
attempt `attempt + k` succeeds with v, the retry loop returns v after
exactly k + 1 invocations, having slept the backoff sequence of length k
starting from the current delay. -/
theorem retryGo_success {α : Type} (op : Nat → Except PyExc α) (retryable : PyExc → Bool)
    (n : Nat) (f M : ℚ) (v : α) :
    ∀ (k attempt remaining : Nat) (delay : ℚ) (last : Option PyExc),
      k < remaining →
      (∀ j, j < k → fails_retryably op retryable (attempt + j)) →
      op (attempt + k) = Except.ok v →
      (retryGo op retryable n f M attempt remaining delay last).result
          = RetryResult.success v ∧
      (retryGo op retryable n f M attempt remaining delay last).calls = k + 1 ∧
      (retryGo op retryable n f M attempt remaining delay last).sleeps
          = backoffSeq delay f M k := by
  intro k
  induction k with
  | zero =>
    intro attempt remaining delay last hk hfail hok
    rw [Nat.add_zero] at hok
    rcases remaining with _ | _ | r
    · omega
    · simp [retryGo, hok, backoffSeq]
    · simp [retryGo, hok, backoffSeq]
  | succ k ih =>
    intro attempt remaining delay last hk hfail hok
    rcases remaining with _ | _ | r
    · omega
    · omega
    · obtain ⟨e, he, hre⟩ := hfail 0 (Nat.succ_pos k)
      rw [Nat.add_zero] at he
      have hfail1 : ∀ j, j < k → fails_retryably op retryable (attempt + 1 + j) := by
        intro j hj
        have h2 := hfail (j + 1) (Nat.succ_lt_succ hj)
        rwa [show attempt + (j + 1) = attempt + 1 + j from by omega] at h2
      have hok1 : op (attempt + 1 + k) = Except.ok v := by
        rwa [show attempt + 1 + k = attempt + (k + 1) from by omega]
      have ihh := ih (attempt + 1) (r + 1) (min (delay * f) M) (some e)
        (by omega) hfail1 hok1
      simp only [retryGo, he, hre, if_true, backoffSeq]
      exact ⟨ihh.1, by rw [ihh.2.1], by rw [ihh.2.2]⟩

/-- If all `remaining` attempts (from index `attempt`) fail retryably, the
retry loop raises the error of the final attempt after exactly `remaining`
invocations, having slept the backoff sequence of length remaining - 1, and
the final-exhaustion log record carrying max_retries is among the logs. -/
theorem retryGo_exhaust {α : Type} (op : Nat → Except PyExc α) (retryable : PyExc → Bool)
    (n : Nat) (f M : ℚ) :
    ∀ (remaining attempt : Nat) (delay : ℚ) (last : Option PyExc) (e : PyExc),
      0 < remaining →
      (∀ j, j < remaining → fails_retryably op retryable (attempt + j)) →
      op (attempt + (remaining - 1)) = Except.error e →
      (retryGo op retryable n f M attempt remaining delay last).result
          = RetryResult.raised e ∧
      (retryGo op retryable n f M attempt remaining delay last).calls = remaining ∧
      (retryGo op retryable n f M attempt remaining delay last).sleeps
          = backoffSeq delay f M (remaining - 1) ∧
      RetryLog.err n ∈ (retryGo op retryable n f M attempt remaining delay last).logs := by
  intro remaining
  induction remaining with
  | zero => intro attempt delay last e hpos; omega
  | succ r ih =>
    intro attempt delay last e _ hfail hlast
    rcases r with _ | r
    · obtain ⟨e0, he0, hre0⟩ := hfail 0 (by omega)
      rw [Nat.add_zero] at he0
      simp only [Nat.zero_add, Nat.sub_self, Nat.add_zero] at hlast
      rw [he0] at hlast
      injection hlast with hee
      subst hee
      simp [retryGo, he0, hre0, backoffSeq]
    · obtain ⟨e0, he0, hre0⟩ := hfail 0 (by omega)
      rw [Nat.add_zero] at he0
      have hfail1 : ∀ j, j < r + 1 → fails_retryably op retryable (attempt + 1 + j) := by
        intro j hj
        have h2 := hfail (j + 1) (by omega)
        rwa [show attempt + (j + 1) = attempt + 1 + j from by omega] at h2
      have hlast1 : op (attempt + 1 + (r + 1 - 1)) = Except.error e := by
        rwa [show attempt + 1 + (r + 1 - 1) = attempt + (r + 1 + 1 - 1) from by omega]
      have ihh := ih (attempt + 1) (min (delay * f) M) (some e0) e (by omega) hfail1 hlast1
      simp only [retryGo, he0, hre0, if_true]
      refine ⟨ihh.1, by rw [ihh.2.1], ?_, ?_⟩
      · show delay :: _ = backoffSeq delay f M (r + 1 + 1 - 1)
        rw [show r + 1 + 1 - 1 = r + 1 from by omega, backoffSeq]
        have hs := ihh.2.2.1
        rw [show (r : Nat) + 1 - 1 = r from by omega] at hs
        rw [hs]
      · exact List.mem_cons_of_mem _ ihh.2.2.2

/-! ## Claim theorems about async_retry -/

/-- Claim C1: for every retry policy with max_attempts = n and every
zero-argument operation that fails with a retryable error exactly k < n
times and then succeeds, async_retry returns the operation's success value
and the operation is invoked exactly k + 1 times. -/
theorem async_retry_success_spec {α : Type} (op : Nat → Except PyExc α)
    (retryable : PyExc → Bool) (n k : Nat)
    (initial_delay backoff_factor max_delay : ℚ) (v : α)
    (hk : k < n)
    (hfail : ∀ j, j < k → fails_retryably op retryable j)
    (hok : op k = Except.ok v) :
    (async_retry op retryable n initial_delay backoff_factor max_delay).result
        = RetryResult.success v ∧
    (async_retry op retryable n initial_delay backoff_factor max_delay).calls
        = k + 1 := by
  have h := retryGo_success op retryable n backoff_factor max_delay v k 0 n
    initial_delay none hk (fun j hj => by simpa using hfail j hj)
    (by simpa using hok)
  exact ⟨h.1, h.2.1⟩

/-- Witness for C1: an operation failing retryably once then returning 42,
under max_retries = 3, is invoked exactly twice and yields 42. -/
theorem async_retry_success_spec_witness :
    (async_retry (fun i => if i = 0 then Except.error (PyExc.valueError "boom")
        else Except.ok (42 : Nat)) (fun _ => true) 3 1 2 60).result
      = RetryResult.success 42 ∧
    (async_retry (fun i => if i = 0 then Except.error (PyExc.valueError "boom")
        else Except.ok (42 : Nat)) (fun _ => true) 3 1 2 60).calls = 2 := by
  exact async_retry_success_spec _ _ 3 1 1 2 60 42 (by omega)
    (fun j hj => by
      have hj0 : j = 0 := by omega
      subst hj0
      exact ⟨PyExc.valueError "boom", rfl, rfl⟩)
    rfl

/-- Claim C2: for every retry policy with max_attempts = n ≥ 1 and every
operation that fails with a retryable error on every attempt, async_retry
invokes the operation exactly n times, never more, re-raises the most
recent error, and the exhaustion log record annotated with the attempt
count n is emitted. -/
theorem async_retry_exhaust_spec {α : Type} (op : Nat → Except PyExc α)
    (retryable : PyExc → Bool) (n : Nat)
    (initial_delay backoff_factor max_delay : ℚ) (e : PyExc)
    (hn : 0 < n)
    (hfail : ∀ j, j < n → fails_retryably op retryable j)
    (hlast : op (n - 1) = Except.error e) :
    (async_retry op retryable n initial_delay backoff_factor max_delay).result
        = RetryResult.raised e ∧
    (async_retry op retryable n initial_delay backoff_factor max_delay).calls = n ∧
    RetryLog.err n ∈
      (async_retry op retryable n initial_delay backoff_factor max_delay).logs := by
  have h := retryGo_exhaust op retryable n backoff_factor max_delay n 0
    initial_delay none e hn (fun j hj => by simpa using hfail j hj)
    (by simpa using hlast)
  exact ⟨h.1, h.2.1, h.2.2.2⟩

/-- Witness for C2: an always-failing operation under max_retries = 2 is
invoked exactly twice, the last error is re-raised and the exhaustion log
record carries the attempt count 2. -/
theorem async_retry_exhaust_spec_witness :
    (async_retry (fun _ => (Except.error (PyExc.valueError "down") : Except PyExc Nat))
        (fun _ => true) 2 1 2 60).result = RetryResult.raised (PyExc.valueError "down") ∧
    (async_retry (fun _ => (Except.error (PyExc.valueError "down") : Except PyExc Nat))
        (fun _ => true) 2 1 2 60).calls = 2 ∧
    RetryLog.err 2 ∈
      (async_retry (fun _ => (Except.error (PyExc.valueError "down") : Except PyExc Nat))
        (fun _ => true) 2 1 2 60).logs := by
  exact async_retry_exhaust_spec _ _ 2 1 2 60 (PyExc.valueError "down") (by omega)
    (fun j _ => ⟨PyExc.valueError "down", rfl, rfl⟩) rfl

/-- Claim C3: in every failing-then-retried run of async_retry, the delays
slept are exactly d 0 = initial_delay, d (i+1) = min (d i * backoff_factor)
max_delay (the backoffSeq recurrence), one delay after each failed
retryable attempt except the last attempt of the run, and the total
suspended time (the sum of the slept delays) is at least the sum of that
delay sequence. -/
theorem async_retry_backoff_spec {α : Type} (op : Nat → Except PyExc α)
    (retryable : PyExc → Bool) (n : Nat)
    (initial_delay backoff_factor max_delay : ℚ) :
    (∀ (k : Nat) (v : α), k < n →
      (∀ j, j < k → fails_retryably op retryable j) →
      op k = Except.ok v →
      (async_retry op retryable n initial_delay backoff_factor max_delay).sleeps
          = backoffSeq initial_delay backoff_factor max_delay k ∧
      (async_retry op retryable n initial_delay backoff_factor max_delay).sleeps.length
          = k ∧
      (backoffSeq initial_delay backoff_factor max_delay k).sum ≤
        (async_retry op retryable n initial_delay backoff_factor max_delay).sleeps.sum) ∧
    (∀ e : PyExc, 0 < n →
      (∀ j, j < n → fails_retryably op retryable j) →
      op (n - 1) = Except.error e →
      (async_retry op retryable n initial_delay backoff_factor max_delay).sleeps
          = backoffSeq initial_delay backoff_factor max_delay (n - 1) ∧
      (async_retry op retryable n initial_delay backoff_factor max_delay).sleeps.length
          = n - 1 ∧
      (backoffSeq initial_delay backoff_factor max_delay (n - 1)).sum ≤
        (async_retry op retryable n initial_delay backoff_factor max_delay).sleeps.sum) := by
  constructor
  · intro k v hk hfail hok
    simp only [async_retry]
    have h := retryGo_success op retryable n backoff_factor max_delay v k 0 n
      initial_delay none hk (fun j hj => by simpa using hfail j hj)
      (by simpa using hok)
    refine ⟨h.2.2, ?_, le_of_eq ?_⟩
    · rw [h.2.2]; exact backoffSeq_length _ _ _ _
    · rw [h.2.2]
  · intro e hn hfail hlast
    simp only [async_retry]
    have h := retryGo_exhaust op retryable n backoff_factor max_delay n 0
      initial_delay none e hn (fun j hj => by simpa using hfail j hj)
      (by simpa using hlast)
    refine ⟨h.2.2.1, ?_, le_of_eq ?_⟩
    · rw [h.2.2.1]; exact backoffSeq_length _ _ _ _
    · rw [h.2.2.1]

/-- Witness for C3: with initial_delay 1, backoff_factor 3 and max_delay 2,
an operation failing twice then succeeding sleeps exactly [1, min (1*3) 2]
= [1, 2], and an always-failing operation with max_retries 2 sleeps
exactly [1]. -/
theorem async_retry_backoff_spec_witness :
    (async_retry (fun i => if i < 2 then Except.error (PyExc.valueError "boom")
        else Except.ok (7 : Nat)) (fun _ => true) 3 1 3 2).sleeps = [1, 2] ∧
    (async_retry (fun _ => (Except.error (PyExc.valueError "down") : Except PyExc Nat))
        (fun _ => true) 2 1 3 2).sleeps = [1] := by
  constructor
  · have h := (async_retry_backoff_spec
      (fun i => if i < 2 then Except.error (PyExc.valueError "boom")
        else Except.ok (7 : Nat)) (fun _ => true) 3 1 3 2).1 2 7 (by omega)
      (fun j hj => ⟨PyExc.valueError "boom", by
        have : j < 2 := hj
        simp [this], rfl⟩) (by norm_num)
    rw [h.1]
    show (1 : ℚ) :: backoffSeq (min (1 * 3) 2) 3 2 1 = [1, 2]
    norm_num [backoffSeq]
  · have h := (async_retry_backoff_spec
      (fun _ => (Except.error (PyExc.valueError "down") : Except PyExc Nat))
      (fun _ => true) 2 1 3 2).2 (PyExc.valueError "down") (by omega)
      (fun j _ => ⟨PyExc.valueError "down", rfl, rfl⟩) rfl
    rw [h.1]
    norm_num [backoffSeq]

/-! ## Claim theorems about async_timeout -/

/-- Counterexample to C4 as stated: an operation that completes BEFORE the
deadline by raising asyncio.TimeoutError itself, run with a fallback set,
does not get its error returned unchanged — the except clause of
async_timeout cannot distinguish it from a deadline timeout and returns
the fallback instead. -/
theorem async_timeout_passthrough_cex :
    async_timeout (CoroOutcome.completes (Except.error PyExc.timeoutError))
        1 (some true) = Except.ok true ∧
    ¬ (async_timeout (CoroOutcome.completes (Except.error PyExc.timeoutError))
        1 (some true) = Except.error PyExc.timeoutError) := by
  exact ⟨rfl, fun h => nomatch h⟩

/-- Claim C4 (amended): async_timeout returns the operation's result
unchanged when it completes before the deadline, and its error unchanged
unless that error is asyncio.TimeoutError while a fallback is set — in
which case it is indistinguishable from a deadline timeout and yields the
fallback; when the operation exceeds the deadline it returns the fallback
(never the late result) if a fallback is set, and raises TimeoutError if
no fallback is set. -/
theorem async_timeout_spec_amended {α : Type} (timeout_sec : ℚ)
    (timeout_result : Option α) :
    (∀ v : α, async_timeout (CoroOutcome.completes (Except.ok v)) timeout_sec
        timeout_result = Except.ok v) ∧
    (∀ e : PyExc, e ≠ PyExc.timeoutError →
      async_timeout (CoroOutcome.completes (Except.error e)) timeout_sec
        timeout_result = Except.error e) ∧
    (∀ fb : α, timeout_result = some fb →
      async_timeout (CoroOutcome.completes (Except.error PyExc.timeoutError))
        timeout_sec timeout_result = Except.ok fb) ∧
    (timeout_result = none →
      async_timeout (CoroOutcome.completes (Except.error PyExc.timeoutError))
        timeout_sec timeout_result = Except.error PyExc.timeoutError) ∧
    (∀ (late fb : α), timeout_result = some fb →
      async_timeout (CoroOutcome.exceedsDeadline late) timeout_sec timeout_result
        = Except.ok fb) ∧
    (∀ late : α, timeout_result = none →
      async_timeout (CoroOutcome.exceedsDeadline late) timeout_sec timeout_result
        = Except.error PyExc.timeoutError) := by
  refine ⟨fun v => rfl, ?_, ?_, ?_, ?_, ?_⟩
  · intro e he
    cases e with
    | timeoutError => exact absurd rfl he
    | valueError m => rfl
    | runtimeError m => rfl
  · intro fb hfb; subst hfb; rfl
  · intro hnone; subst hnone; rfl
  · intro late fb hfb; subst hfb; rfl
  · intro late hnone; subst hnone; rfl

/-- Witness for the amended C4 at concrete inputs: a completed Boolean
result passes through; a completed runtimeError passes through; an
operation exceeding the deadline returns the fallback, not the late
result; with no fallback it raises TimeoutError. -/
theorem async_timeout_spec_amended_witness :
    async_timeout (CoroOutcome.completes (Except.ok true)) 1 (some false)
        = Except.ok true ∧
    async_timeout (CoroOutcome.completes
        (Except.error (PyExc.runtimeError "boom"))) 1 (some false)
        = Except.error (PyExc.runtimeError "boom") ∧
    async_timeout (CoroOutcome.exceedsDeadline true) 1 (some false)
        = Except.ok false ∧
    async_timeout (CoroOutcome.exceedsDeadline true) 1 (none : Option Bool)
        = Except.error PyExc.timeoutError := by
  refine ⟨(async_timeout_spec_amended 1 (some false)).1 true,
    (async_timeout_spec_amended 1 (some false)).2.1 (PyExc.runtimeError "boom")
      (fun h => nomatch h),
    (async_timeout_spec_amended 1 (some false)).2.2.2.2.1 true false rfl,
    (async_timeout_spec_amended 1 (none : Option Bool)).2.2.2.2.2 true rfl⟩

/-- Claim C10: async_timeout uses None as the no-fallback sentinel — for
every operation exceeding the deadline, a timeout_result of None always
raises TimeoutError, so None can never be returned as a fallback, while
any other value, including the falsy values 0, False and the empty string,
is returned as the fallback. -/
theorem async_timeout_sentinel_spec :
    (∀ late : PyVal, ∀ timeout_sec : ℚ,
      async_timeout (CoroOutcome.exceedsDeadline late) timeout_sec none
        = Except.error PyExc.timeoutError) ∧
    (∀ late fb : PyVal, ∀ timeout_sec : ℚ,
      async_timeout (CoroOutcome.exceedsDeadline late) timeout_sec (some fb)
        = Except.ok fb) ∧
    (∀ late : PyVal, ∀ timeout_sec : ℚ,
      async_timeout (CoroOutcome.exceedsDeadline late) timeout_sec
        (some (PyVal.int 0)) = Except.ok (PyVal.int 0) ∧
      async_timeout (CoroOutcome.exceedsDeadline late) timeout_sec
        (some (PyVal.bool false)) = Except.ok (PyVal.bool false) ∧
      async_timeout (CoroOutcome.exceedsDeadline late) timeout_sec
        (some (PyVal.str "")) = Except.ok (PyVal.str "")) :=
  ⟨fun _ _ => rfl, fun _ _ _ => rfl, fun _ _ => ⟨rfl, rfl, rfl⟩⟩

/-! ## Claim theorems about the scheduler bridge -/

/-- Claim C7: every call to get_or_create_event_loop returns a loop that is
not closed and installs it as the thread's current loop; if the thread had
no loop, or its previous loop was closed, the returned loop is freshly
created (it carries the next fresh identity and differs from the closed
one), so a closed handle is never returned or reused. -/
theorem get_or_create_event_loop_spec (ctx : ThreadCtx) :
    (get_or_create_event_loop ctx).1.is_closed = false ∧
    (get_or_create_event_loop ctx).2.current_loop
        = some (get_or_create_event_loop ctx).1 ∧
    (ctx.current_loop = none →
      (get_or_create_event_loop ctx).1.id = ctx.next_id) ∧
    (∀ old : EventLoop, ctx.current_loop = some old → old.is_closed = true →
      (get_or_create_event_loop ctx).1.id = ctx.next_id ∧
      (get_or_create_event_loop ctx).1 ≠ old) := by
  rcases hc : ctx.current_loop with _ | old
  · have hres : get_or_create_event_loop ctx
        = (⟨ctx.next_id, false⟩,
           { current_loop := some ⟨ctx.next_id, false⟩, next_id := ctx.next_id + 1 }) := by
      simp [get_or_create_event_loop, get_event_loop, new_event_loop, set_event_loop, hc]
    refine ⟨by rw [hres], by rw [hres], fun _ => by rw [hres], ?_⟩
    intro old h1 _
    exact absurd h1 (by simp)
  · cases hcl : old.is_closed
    · have hres : get_or_create_event_loop ctx = (old, ctx) := by
        simp [get_or_create_event_loop, get_event_loop, hc, hcl]
      refine ⟨by rw [hres]; exact hcl, by rw [hres, hc], ?_, ?_⟩
      · intro h; exact absurd h (by simp)
      · intro o h1 h2
        injection h1 with h1
        subst h1
        rw [hcl] at h2
        exact absurd h2 (by simp)
    · have hres : get_or_create_event_loop ctx
          = (⟨ctx.next_id, false⟩,
             { current_loop := some ⟨ctx.next_id, false⟩, next_id := ctx.next_id + 1 }) := by
        simp [get_or_create_event_loop, get_event_loop, new_event_loop, set_event_loop,
          hc, hcl]
      refine ⟨by rw [hres], by rw [hres], fun _ => by rw [hres], ?_⟩
      intro o h1 h2
      injection h1 with h1
      subst h1
      refine ⟨by rw [hres], ?_⟩
      rw [hres]
      intro heq
      rw [← heq] at h2
      exact absurd h2 (by simp)

/-- Witness for C7: a thread whose installed loop (id 5) is closed gets a
fresh open loop with the next identity 7, installed as current. -/
theorem get_or_create_event_loop_spec_witness :
    (get_or_create_event_loop ⟨some ⟨5, true⟩, 7⟩).1.is_closed = false ∧
    (get_or_create_event_loop ⟨some ⟨5, true⟩, 7⟩).1.id = 7 ∧
    (get_or_create_event_loop ⟨some ⟨5, true⟩, 7⟩).1 ≠ (⟨5, true⟩ : EventLoop) ∧
    (get_or_create_event_loop ⟨some ⟨5, true⟩, 7⟩).2.current_loop
        = some (get_or_create_event_loop ⟨some ⟨5, true⟩, 7⟩).1 := by
  have h := get_or_create_event_loop_spec ⟨some ⟨5, true⟩, 7⟩
  have h4 := h.2.2.2 ⟨5, true⟩ rfl rfl
  exact ⟨h.1, h4.1, h4.2, h.2.1⟩

/-- Claim C8: create_task_if_loop_running returns none — rather than
failing — when no scheduler loop is running, and returns a task handle
attached to the running loop and carrying the given coroutine when one
is. -/
theorem create_task_if_loop_running_spec {C : Type} (running : Option EventLoop)
    (coro : C) :
    (running = none → create_task_if_loop_running running coro = none) ∧
    (∀ l : EventLoop, running = some l →
      ∃ t : PyTask C, create_task_if_loop_running running coro = some t ∧
        t.coro = coro ∧ t.loop_id = l.id) := by
  constructor
  · intro h; subst h; rfl
  · intro l h; subst h
    exact ⟨⟨l.id, coro⟩, rfl, rfl, rfl⟩

/-- Witness for C8: with no running loop the call yields none; inside a
running loop with id 3 it yields a task holding the coroutine. -/
theorem create_task_if_loop_running_spec_witness :
    create_task_if_loop_running (none : Option EventLoop) (0 : Nat) = none ∧
    (∃ t : PyTask Nat, create_task_if_loop_running (some ⟨3, false⟩) (0 : Nat)
        = some t ∧ t.coro = 0 ∧ t.loop_id = 3) := by
  exact ⟨(create_task_if_loop_running_spec none 0).1 rfl,
    (create_task_if_loop_running_spec (some ⟨3, false⟩) (0 : Nat)).2 ⟨3, false⟩ rfl⟩

/-! ## Claim theorems about the controller lifecycle -/

theorem run_loop_halt (loopStep : Nat → LoopStepResult) :
    ∀ (fuel : Nat) (s : RunState), s.running_flag = false →
      run_loop loopStep fuel s = s := by
  intro fuel s h
  cases fuel with
  | zero => rfl
  | succ f => simp [run_loop, h]

/-- Claim C5: a controller whose loop step raises on iteration 1 and clears
running_flag on iteration 2 has that error caught and counted without the
lifecycle leaving Running, and ends in Stopped with iteration_count = 2 and
the cleanup step invoked exactly once. -/
theorem async_run_fault_isolation_spec (loopStep : Nat → LoopStepResult)
    (fuel : Nat)
    (h1 : ∃ e, loopStep 0 = LoopStepResult.raises e)
    (h2 : loopStep 1 = LoopStepResult.ok false)
    (hf : 2 ≤ fuel) :
    (async_run (Except.ok ()) loopStep fuel).lifecycle = LifecycleState.stopped ∧
    (async_run (Except.ok ()) loopStep fuel).iteration_count = 2 ∧
    (async_run (Except.ok ()) loopStep fuel).cleanup_calls = 1 ∧
    (async_run (Except.ok ()) loopStep fuel).caught_errors = 1 ∧
    (run_iteration loopStep
        ⟨LifecycleState.running, true, 0, 0, 0⟩).lifecycle = LifecycleState.running ∧
    (run_iteration loopStep
        ⟨LifecycleState.running, true, 0, 0, 0⟩).running_flag = true := by
  obtain ⟨e, he⟩ := h1
  obtain ⟨f, rfl⟩ : ∃ f, fuel = f + 2 := ⟨fuel - 2, by omega⟩
  have hs1 : run_iteration loopStep ⟨LifecycleState.running, true, 0, 0, 0⟩
      = ⟨LifecycleState.running, true, 1, 0, 1⟩ := by
    simp [run_iteration, he]
  have hs2 : run_iteration loopStep ⟨LifecycleState.running, true, 1, 0, 1⟩
      = ⟨LifecycleState.running, false, 2, 0, 1⟩ := by
    simp [run_iteration, h2]
  have hloop : run_loop loopStep (f + 2) ⟨LifecycleState.running, true, 0, 0, 0⟩
      = ⟨LifecycleState.running, false, 2, 0, 1⟩ := by
    rw [run_loop]
    simp only [if_pos rfl]
    rw [hs1, run_loop]
    simp only [if_pos rfl]
    rw [hs2]
    exact run_loop_halt loopStep f _ rfl
  refine ⟨?_, ?_, ?_, ?_, by rw [hs1], by rw [hs1]⟩ <;>
    simp [async_run, hloop]

/-- Witness for C5: the concrete controller from the repository test —
raise ValueError on the first iteration, clear running_flag on the
second — ends Stopped after 2 iterations with one cleanup and one caught
error. -/
theorem async_run_fault_isolation_spec_witness :
    (async_run (Except.ok ())
      (fun i => if i = 0 then LoopStepResult.raises (PyExc.valueError "Test exception")
        else LoopStepResult.ok false) 2).lifecycle = LifecycleState.stopped ∧
    (async_run (Except.ok ())
      (fun i => if i = 0 then LoopStepResult.raises (PyExc.valueError "Test exception")
        else LoopStepResult.ok false) 2).iteration_count = 2 ∧
    (async_run (Except.ok ())
      (fun i => if i = 0 then LoopStepResult.raises (PyExc.valueError "Test exception")
        else LoopStepResult.ok false) 2).cleanup_calls = 1 ∧
    (async_run (Except.ok ())
      (fun i => if i = 0 then LoopStepResult.raises (PyExc.valueError "Test exception")
        else LoopStepResult.ok false) 2).caught_errors = 1 := by
  have h := async_run_fault_isolation_spec
    (fun i => if i = 0 then LoopStepResult.raises (PyExc.valueError "Test exception")
      else LoopStepResult.ok false) 2
    ⟨PyExc.valueError "Test exception", rfl⟩ rfl (le_refl 2)
  exact ⟨h.1, h.2.1, h.2.2.1, h.2.2.2.1⟩

/-- Claim C6: try_initialize with tries = 3 against an initializer failing
twice then succeeding invokes it exactly 3 times and ends with
initialized_flag true; with tries = 2 against an always-failing
initializer it invokes it exactly 2 times, reports the failure in the log
without raising, and the controller ends Stopped, never reaching
Running. -/
theorem try_initialize_spec (init1 init2 : Nat → Except PyExc Unit) (wait : ℚ)
    (h01 : ∀ j, j < 2 → ∃ e, init1 j = Except.error e)
    (h2 : init1 2 = Except.ok ())
    (hall : ∀ j, ∃ e, init2 j = Except.error e) :
    (async_try_initialize_model init1 3 wait).invocations = 3 ∧
    (async_try_initialize_model init1 3 wait).initialized_flag = true ∧
    (async_try_initialize_model init2 2 wait).invocations = 2 ∧
    (async_try_initialize_model init2 2 wait).raised = false ∧
    1 ≤ (async_try_initialize_model init2 2 wait).error_logs ∧
    (controller_start init2 2 wait).1 = LifecycleState.stopped ∧
    (controller_start init2 2 wait).1 ≠ LifecycleState.running := by
  obtain ⟨e0, he0⟩ := h01 0 (by omega)
  obtain ⟨e1, he1⟩ := h01 1 (by omega)
  obtain ⟨f0, hf0⟩ := hall 0
  obtain ⟨f1, hf1⟩ := hall 1
  have hA : async_try_initialize_model init1 3 wait
      = { invocations := 3, initialized_flag := true, error_logs := 2,
          sleeps := [wait, wait], raised := false } := by
    simp [async_try_initialize_model, try_initialize_go, he0, he1, h2]
  have hB : async_try_initialize_model init2 2 wait
      = { invocations := 2, initialized_flag := false, error_logs := 2,
          sleeps := [wait], raised := false } := by
    simp [async_try_initialize_model, try_initialize_go, hf0, hf1]
  refine ⟨by simp [hA], by simp [hA], by simp [hB], by simp [hB], by simp [hB],
    ?_, ?_⟩
  · simp [controller_start, hB]
  · simp [controller_start, hB]

/-- Witness for C6: the two concrete initializers from the repository
tests — fail twice then succeed (tries = 3), and always fail
(tries = 2). -/
theorem try_initialize_spec_witness :
    (async_try_initialize_model
      (fun j => if j < 2 then Except.error (PyExc.valueError "Initialization failed")
        else Except.ok ()) 3 1).invocations = 3 ∧
    (async_try_initialize_model
      (fun j => if j < 2 then Except.error (PyExc.valueError "Initialization failed")
        else Except.ok ()) 3 1).initialized_flag = true ∧
    (async_try_initialize_model
      (fun _ => (Except.error (PyExc.valueError "Always fails") : Except PyExc Unit))
      2 1).invocations = 2 ∧
    (async_try_initialize_model
      (fun _ => (Except.error (PyExc.valueError "Always fails") : Except PyExc Unit))
      2 1).raised = false ∧
    (controller_start
      (fun _ => (Except.error (PyExc.valueError "Always fails") : Except PyExc Unit))
      2 1).1 = LifecycleState.stopped := by
  have h := try_initialize_spec
    (fun j => if j < 2 then Except.error (PyExc.valueError "Initialization failed")
      else Except.ok ())
    (fun _ => (Except.error (PyExc.valueError "Always fails") : Except PyExc Unit)) 1
    (fun j hj => ⟨PyExc.valueError "Initialization failed", by simp [hj]⟩)
    (by norm_num)
    (fun j => ⟨PyExc.valueError "Always fails", rfl⟩)
  exact ⟨h.1, h.2.1, h.2.2.1, h.2.2.2.1, h.2.2.2.2.2.1⟩

/-- Claim C9: the health check is callable in every controller state,
returns the state unchanged (no mutation), by default reports
healthy = initialized_flag and running_flag, and its report — for the
default as well as for the example sensor's override — always contains a
Boolean healthy field and a string message field. -/
theorem health_check_spec (c : BaseControllerState) (s : SensorState) :
    (AbstractBaseController.async_health_check c).2 = c ∧
    (AbstractBaseController.async_health_check c).1.lookup "healthy"
        = some (PyVal.bool (c.initialized_flag && c.running_flag)) ∧
    (∃ m : String, (AbstractBaseController.async_health_check c).1.lookup "message"
        = some (PyVal.str m)) ∧
    (AsyncTemperatureSensor.async_health_check s).2 = s ∧
    (AsyncTemperatureSensor.async_health_check s).1.lookup "healthy"
        = some (PyVal.bool s.is_connected) ∧
    (∃ m : String, (AsyncTemperatureSensor.async_health_check s).1.lookup "message"
        = some (PyVal.str m)) := by
  refine ⟨rfl, ?_, ?_, rfl, ?_, ?_⟩
  · simp [AbstractBaseController.async_health_check, List.lookup]
  · exact ⟨if c.initialized_flag && c.running_flag then "Controller is healthy"
      else "Controller is not running",
      by simp [AbstractBaseController.async_health_check, List.lookup]⟩
  · simp [AsyncTemperatureSensor.async_health_check, List.lookup]
  · exact ⟨if s.is_connected then "Sensor is running" else "Sensor not connected",
      by simp [AsyncTemperatureSensor.async_health_check, List.lookup]⟩

end Mycodo
